import Mathlib

/-!
Verification of the HardwareExpress Log AI microservice
(`server/ai_service/log_ai_service.py`) against its design specification.

The decision layer is shallowly embedded: Python values flowing through
`pick_top_label` are modelled by the inductive `PyVal`, Python exceptions by
`PyErr`, and each Python operation the code performs (`dict.get`, `>`
comparison, `max(..., key=...)`, `float(...)`, `str(...)`) by an explicit
Lean function with the same behaviour, including the exceptions it raises.
The module-level mutable globals `_model_pipeline` / `_model_error` become an
explicit `ModelState` threaded through `get_pipeline` and `analyze_log`, and
the external `transformers.pipeline` collaborator becomes the `PipelineLib`
environment.  Python `float` scores are modelled by `ℚ`: every claim is about
comparison and selection, never about binary rounding.
-/

namespace LogAI

/-- Python values that can reach `pick_top_label`: numbers, strings, lists,
candidate dicts (only the `"label"` and `"score"` keys are ever accessed, so a
dict is modelled by those two optional slots), and `None`. -/
inductive PyVal where
  | num (q : ℚ)
  | str (s : String)
  | list (xs : List PyVal)
  | dict (label : Option PyVal) (score : Option PyVal)
  | none
deriving Repr

/-- The Python exceptions the modelled operations can raise. -/
inductive PyErr where
  | attrError
  | typeError
  | valueError
deriving Repr, DecidableEq

mutual

/-- Python `==` on the modelled values (never raises; cross-type is `False`). -/
def pyEq : PyVal → PyVal → Bool
  | PyVal.num a, PyVal.num b => a == b
  | PyVal.str a, PyVal.str b => a == b
  | PyVal.list xs, PyVal.list ys => pyEqList xs ys
  | PyVal.dict l1 s1, PyVal.dict l2 s2 => pyEqOpt l1 l2 && pyEqOpt s1 s2
  | PyVal.none, PyVal.none => true
  | _, _ => false

/-- Equality of optional dict slots (absent = absent counts as equal). -/
def pyEqOpt : Option PyVal → Option PyVal → Bool
  | Option.none, Option.none => true
  | Option.some a, Option.some b => pyEq a b
  | _, _ => false

/-- Python `==` on lists: pointwise, same length. -/
def pyEqList : List PyVal → List PyVal → Bool
  | [], [] => true
  | x :: xs, y :: ys => pyEq x y && pyEqList xs ys
  | _, _ => false

end

mutual

/-- Python `>` on the modelled values: numbers and strings compare within
their own type, lists compare lexicographically, and every other combination
(dicts, `None`, mixed types) raises `TypeError`, exactly as CPython does. -/
def pyGt : PyVal → PyVal → Except PyErr Bool
  | PyVal.num a, PyVal.num b => Except.ok (decide (b < a))
  | PyVal.str a, PyVal.str b => Except.ok (decide (b < a))
  | PyVal.list xs, PyVal.list ys => pyGtList xs ys
  | _, _ => Except.error PyErr.typeError

/-- Python `>` on lists: skip equal heads, then compare the first differing
pair; a strict prefix is smaller. -/
def pyGtList : List PyVal → List PyVal → Except PyErr Bool
  | [], [] => Except.ok false
  | [], _ :: _ => Except.ok false
  | _ :: _, [] => Except.ok true
  | x :: xs, y :: ys => if pyEq x y then pyGtList xs ys else pyGt x y

end

/-- Python `v.get(key, dflt)`: defined only on dicts (any other receiver
raises `AttributeError`, since only dicts have `.get`); an absent key yields
the default.  The source only ever asks for `"label"` and `"score"`. -/
def pyGet (v : PyVal) (key : String) (dflt : PyVal) : Except PyErr PyVal :=
  match v with
  | PyVal.dict l s =>
      if key = "label" then Except.ok (l.getD dflt)
      else if key = "score" then Except.ok (s.getD dflt)
      else Except.ok dflt
  | _ => Except.error PyErr.attrError

/-- Numeric value of a nonempty all-digit character list. -/
def digitsVal? : List Char → Option Nat
  | [] => Option.none
  | cs =>
      if cs.all Char.isDigit then
        Option.some (cs.foldl (fun n c => 10 * n + (c.toNat - 48)) 0)
      else
        Option.none

/-- Python `float()` on a string, modelled for plain decimal literals
(optional sign, integer digits, optional fractional digits, at least one
digit overall).  The further forms CPython accepts (exponents, `inf`, `nan`,
surrounding whitespace) never occur in any claim's inputs and are mapped to
parse failure together with genuinely malformed text. -/
def parseFloat? (s : String) : Option ℚ :=
  let cs := s.toList
  let signed : ℚ × List Char :=
    match cs with
    | '-' :: rest => (-1, rest)
    | '+' :: rest => (1, rest)
    | _ => (1, cs)
  match signed.2.splitOn '.' with
  | [intPart] => (digitsVal? intPart).map (fun n => signed.1 * n)
  | [intPart, fracPart] =>
      if intPart.isEmpty && fracPart.isEmpty then Option.none
      else
        let ip := if intPart.isEmpty then Option.some 0 else digitsVal? intPart
        let fp := if fracPart.isEmpty then Option.some 0 else digitsVal? fracPart
        match ip, fp with
        | Option.some i, Option.some f =>
            Option.some (signed.1 * ((i : ℚ) + (f : ℚ) / (10 ^ fracPart.length)))
        | _, _ => Option.none
  | _ => Option.none

/-- Python `float()` conversion: numbers pass through, strings are parsed
(`ValueError` on failure), everything else raises `TypeError`. -/
def pyFloatConv : PyVal → Except PyErr ℚ
  | PyVal.num q => Except.ok q
  | PyVal.str s =>
      match parseFloat? s with
      | Option.some q => Except.ok q
      | Option.none => Except.error PyErr.valueError
  | _ => Except.error PyErr.typeError

/-- Python `str()` conversion: the identity on strings — the only case any
claim exercises, since labels are strings or default to `"unknown"`.
Rendering of non-string values goes through Lean's `repr`, abstracting
CPython's exact formatting (e.g. the float repr algorithm), which no claim
observes. -/
def pyStrConv : PyVal → String
  | PyVal.str s => s
  | v => reprStr v

/-- The loop of Python `max(candidates, key=...)`: walk the remaining items,
computing the key of each and replacing the current best only on a strictly
greater key, so the first-encountered maximum is kept; key errors and
comparison errors propagate. -/
def maxByKeyGo (key : PyVal → Except PyErr PyVal) (best bestK : PyVal) :
    List PyVal → Except PyErr PyVal
  | [] => Except.ok best
  | y :: ys =>
      match key y with
      | Except.error e => Except.error e
      | Except.ok ky =>
          match pyGt ky bestK with
          | Except.error e => Except.error e
          | Except.ok true => maxByKeyGo key y ky ys
          | Except.ok false => maxByKeyGo key best bestK ys

/-- Python `max(candidates, key=...)` (`ValueError` on an empty sequence; the
source guards against that case before calling it). -/
def maxByKey (key : PyVal → Except PyErr PyVal) : List PyVal → Except PyErr PyVal
  | [] => Except.error PyErr.valueError
  | x :: xs =>
      match key x with
      | Except.error e => Except.error e
      | Except.ok kx => maxByKeyGo key x kx xs

/-- The result `{"label": ..., "score": ...}` dict returned by
`pick_top_label`: the label has been through `str()` and the score through
`float()`. -/
structure TopLabel where
  label : String
  score : ℚ
deriving Repr, DecidableEq

/-- Lines 71–76 of the source: the candidate list extracted from the raw
classifier result.  A nonempty list whose first element is a list is
batch-nested, and only that first inner list is used; any other list is used
as-is; every non-list value yields the empty candidate list. -/
def extractCandidates : PyVal → List PyVal
  | PyVal.list (PyVal.list ys :: _) => ys
  | PyVal.list xs => xs
  | _ => []

/-- The key function `lambda item: item.get("score", 0.0)`. -/
def scoreKey (item : PyVal) : Except PyErr PyVal :=
  pyGet item "score" (PyVal.num 0)

/-- Lines 78–85 of the source: the empty-candidate fallback, then
`max(candidates, key=lambda item: item.get("score", 0.0))`, then the result
dict `{"label": str(top.get("label", "unknown")), "score":
float(top.get("score", 0.0))}`, with each step's possible exception made
explicit. -/
def pickFrom (candidates : List PyVal) : Except PyErr TopLabel :=
  if candidates.isEmpty then Except.ok ⟨"unknown", 0⟩
  else
    match maxByKey scoreKey candidates with
    | Except.error e => Except.error e
    | Except.ok top =>
        match pyGet top "label" (PyVal.str "unknown") with
        | Except.error e => Except.error e
        | Except.ok lv =>
            match pyGet top "score" (PyVal.num 0) with
            | Except.error e => Except.error e
            | Except.ok sv =>
                match pyFloatConv sv with
                | Except.error e => Except.error e
                | Except.ok q => Except.ok ⟨pyStrConv lv, q⟩

/-- `pick_top_label` (source lines 70–85): candidate extraction followed by
top selection. -/
def pick_top_label (result : PyVal) : Except PyErr TopLabel :=
  pickFrom (extractCandidates result)

/-- Whether a Python value is a list (`isinstance(result, list)`). -/
def isList : PyVal → Bool
  | PyVal.list _ => true
  | _ => false

/-- The external `transformers.pipeline` collaborator as the process sees it:
the import failed (`pipeline is None`), or constructing the pipeline returns
a handle `p`, or constructing it raises an exception whose `str()` is `msg`.
Fixed per process — the environment does not change between calls. -/
inductive PipelineLib (P : Type) where
  | unavailable
  | loads (p : P)
  | raises (msg : String)

/-- The module-level mutable globals `_model_pipeline` and `_model_error`. -/
structure ModelState (P : Type) where
  model_pipeline : Option P
  model_error : Option String

/-- `get_pipeline` (source lines 53–67), with the globals made explicit:
returns the Python return value together with the updated globals.  If either
global is already set, it returns at once; otherwise it attempts
initialization through the library environment, caching either the handle or
the error message. -/
def get_pipeline {P : Type} (lib : PipelineLib P) (st : ModelState P) :
    Option P × ModelState P :=
  if st.model_pipeline.isSome || st.model_error.isSome then
    (st.model_pipeline, st)
  else
    match lib with
    | PipelineLib.unavailable =>
        (Option.none, { st with model_error := Option.some "transformers not available" })
    | PipelineLib.loads p =>
        (Option.some p, { st with model_pipeline := Option.some p })
    | PipelineLib.raises msg =>
        (Option.none, { st with model_error := Option.some msg })

/-- A loaded text-classification pipeline: text in, raw Python result out.
(The source's `truncation=True` keyword only affects tokenization inside the
opaque model and is absorbed into the function.) -/
def Pipe : Type := String → PyVal

/-- The process-wide read-only configuration: `MODEL_NAME`,
`SCORE_THRESHOLD` and `SUSPICIOUS_LABELS` (source lines 21–29), abstracted
over the environment variables they are parsed from.  The Python `set` of
labels is modelled as a list queried only through membership and
emptiness. -/
structure Config where
  model_name : String
  score_threshold : ℚ
  suspicious_labels : List String

/-- The `AnalyzeRequest` body (source lines 37–40). -/
structure AnalyzeRequest where
  log_id : String
  text : String
  metadata : Option PyVal

/-- The `AnalyzeResponse` body (source lines 43–50). -/
structure AnalyzeResponse where
  model_name : String
  label : String
  score : ℚ
  threshold : ℚ
  is_suspicious : Bool
  ai_summary : Option String
  raw : Option PyVal

/-- What a call to the `/analyze` handler produces: a normal response, an
`HTTPException` (status, detail), or an uncaught Python exception escaping
`pick_top_label` (which FastAPI would surface as a 500). -/
inductive AnalyzeOutcome where
  | ok (resp : AnalyzeResponse)
  | httpError (status : Nat) (detail : String)
  | pyError (e : PyErr)

/-- Round to the nearest integer, ties to even — the rounding CPython's
`format` applies for `f`-formatting (modulo binary representation of the
float, which is abstracted by `ℚ` throughout). -/
def roundHalfEven (x : ℚ) : ℤ :=
  let n := Rat.floor x
  let f := x - n
  if f < 1 / 2 then n
  else if 1 / 2 < f then n + 1
  else if n % 2 = 0 then n else n + 1

/-- Left-pad a string with zeros to the given width. -/
def padZeros (s : String) (w : Nat) : String :=
  if w ≤ s.length then s else String.mk (List.replicate (w - s.length) '0') ++ s

/-- The Python format expression `f"{score:.3f}"`. -/
def formatScore3 (x : ℚ) : String :=
  let n := roundHalfEven (x * 1000)
  let sign := if n < 0 then "-" else ""
  let m := n.natAbs
  sign ++ toString (m / 1000) ++ "." ++ padZeros (toString (m % 1000)) 3

/-- The detail string `_model_error or "model not initialized"` (source line
97): Python `or` falls through on a falsy — absent or empty — left operand. -/
def errorDetail (e : Option String) : String :=
  match e with
  | Option.some s => if s = "" then "model not initialized" else s
  | Option.none => "model not initialized"

/-- The `/analyze` handler `analyze_log` (source lines 93–120), with the
mutable globals threaded explicitly: obtain the pipeline (possibly
initializing it), fail with HTTP 503 if it is unavailable, otherwise run the
classifier on the request text, select the top label, decide suspicion
against the configured threshold and label set, and assemble the response. -/
def analyze_log (cfg : Config) (lib : PipelineLib Pipe) (st : ModelState Pipe)
    (req : AnalyzeRequest) : AnalyzeOutcome × ModelState Pipe :=
  let r := get_pipeline lib st
  match r.1 with
  | Option.none => (AnalyzeOutcome.httpError 503 (errorDetail r.2.model_error), r.2)
  | Option.some pipe =>
      let result := pipe req.text
      match pick_top_label result with
      | Except.error e => (AnalyzeOutcome.pyError e, r.2)
      | Except.ok top =>
          let label := top.label
          let score := top.score
          let is_suspicious :=
            if !cfg.suspicious_labels.isEmpty then
              decide (cfg.score_threshold ≤ score) && cfg.suspicious_labels.contains label
            else
              decide (cfg.score_threshold ≤ score)
          let summary := "label=" ++ label ++ ", score=" ++ formatScore3 score
          (AnalyzeOutcome.ok
            { model_name := cfg.model_name
              label := label
              score := score
              threshold := cfg.score_threshold
              is_suspicious := is_suspicious
              ai_summary := Option.some summary
              raw := Option.some result }, r.2)

/-- The `/health` handler (source lines 88–90).  It is given the process
state so that claims about what it reports *about* that state can be stated;
the source body reads only `MODEL_NAME`. -/
def health {P : Type} (model_name : String) (_st : ModelState P) :
    List (String × String) :=
  [("status", "ok"), ("model", model_name)]

/-- Modelled from the spec: the outcome of the rule-grounded path's
underlying generator.  That component is not under `src/` (only the
score-based service is); per §4.2 the generator either yields raw text or
fails outright (timeout, exception, empty or non-UTF output delivered as a
failure). -/
inductive GenResult where
  | ok (text : String)
  | failure (reason : String)

/-- Whether `needle` occurs as a contiguous sublist of `hay`. -/
def containsSub (needle hay : List Char) : Bool :=
  needle.isPrefixOf hay ||
    match hay with
    | [] => false
    | _ :: t => containsSub needle t

/-- Modelled from the spec: case-insensitive substring search, used for
verdict extraction over the generator's raw output. -/
def containsCI (hay pat : String) : Bool :=
  containsSub (pat.toList.map Char.toUpper) (hay.toList.map Char.toUpper)

/-- Modelled from the spec (§4.2, §7): the Rule-Grounded Prompt Classifier's
verdict extraction — search the generated text for `"ANOMALOUS"` first, then
`"NORMAL"`, case-insensitively, and default to `"NORMAL"` when neither
appears or when generation failed for any reason; never an error. -/
def extract_verdict : GenResult → String
  | GenResult.failure _ => "NORMAL"
  | GenResult.ok t =>
      if containsCI t "ANOMALOUS" then "ANOMALOUS"
      else if containsCI t "NORMAL" then "NORMAL"
      else "NORMAL"

/-- A candidate as the spec's data model describes it: an optional label and
an optional score (either field may be missing). -/
def OptCand : Type := Option String × Option ℚ

/-- Embedding of a spec-level candidate as the Python dict the classifier
would emit. -/
def embedCand (c : OptCand) : PyVal :=
  PyVal.dict (c.1.map PyVal.str) (c.2.map PyVal.num)

/-- The default substitutions the spec prescribes: a missing label becomes
`"unknown"`, a missing score becomes `0.0`. -/
def candDefaults (c : OptCand) : TopLabel :=
  ⟨c.1.getD "unknown", c.2.getD 0⟩

/-- Embedding of a fully-formed (label, score) candidate pair. -/
def embedPair (c : String × ℚ) : PyVal :=
  PyVal.dict (Option.some (PyVal.str c.1)) (Option.some (PyVal.num c.2))

/-- The effective score of a spec-level candidate (missing = 0). -/
def scoreOf (c : OptCand) : ℚ := c.2.getD 0

/-- First-occurrence maximum by key, the spec's description of stable
selection: scan left to right, replacing the current best only on a strictly
greater key. -/
def firstMaxBy {α : Type} (key : α → ℚ) (c : α) : List α → α
  | [] => c
  | d :: ds => if key c < key d then firstMaxBy key d ds else firstMaxBy key c ds

/-- View of a fully-formed candidate pair as a spec-level candidate. -/
def toOptCand (c : String × ℚ) : OptCand := (Option.some c.1, Option.some c.2)

/-! ### Supporting lemmas -/

/-- The `max` key function evaluated on an embedded candidate: the score
slot, defaulted to `0.0` when missing. -/
lemma scoreKey_embedCand (c : OptCand) :
    scoreKey (embedCand c) = Except.ok (PyVal.num (scoreOf c)) := by
  obtain ⟨l, s⟩ := c
  cases s <;> simp [scoreKey, pyGet, embedCand, scoreOf]

/-- The `max` loop over embedded candidates is the spec's first-occurrence
maximum by (defaulted) score. -/
lemma maxByKeyGo_embedCand (cs : List OptCand) : ∀ c : OptCand,
    maxByKeyGo scoreKey (embedCand c) (PyVal.num (scoreOf c)) (cs.map embedCand)
      = Except.ok (embedCand (firstMaxBy scoreOf c cs)) := by
  induction cs with
  | nil => intro c; simp [maxByKeyGo, firstMaxBy]
  | cons d ds ih =>
      intro c
      simp only [List.map_cons, maxByKeyGo, scoreKey_embedCand, pyGt, firstMaxBy]
      by_cases h : scoreOf c < scoreOf d
      · simp [h, ih d]
      · simp [h, ih c]

/-- `pick_top_label` on a nonempty flat list of embedded candidates returns
the first-occurrence maximum with the default substitutions applied. -/
lemma pick_top_label_embedCand (c : OptCand) (cs : List OptCand) :
    pick_top_label (PyVal.list ((c :: cs).map embedCand))
      = Except.ok (candDefaults (firstMaxBy scoreOf c cs)) := by
  have hext : extractCandidates (PyVal.list ((c :: cs).map embedCand))
      = (c :: cs).map embedCand := by
    obtain ⟨l, s⟩ := c
    simp [extractCandidates, embedCand]
  rw [pick_top_label, hext]
  simp only [List.map_cons, pickFrom, List.isEmpty_cons, Bool.false_eq_true,
    if_false, maxByKey, scoreKey_embedCand, maxByKeyGo_embedCand]
  obtain ⟨l, s⟩ := firstMaxBy scoreOf c cs
  cases l <;> cases s <;>
    simp [pyGet, embedCand, candDefaults, pyStrConv, pyFloatConv, scoreOf]

/-- `firstMaxBy` commutes with mapping an embedding over the list. -/
lemma firstMaxBy_map {α β : Type} (f : α → β) (key : β → ℚ) (c : α)
    (ds : List α) :
    firstMaxBy key (f c) (ds.map f) = f (firstMaxBy (fun a => key (f a)) c ds) := by
  induction ds generalizing c with
  | nil => simp [firstMaxBy]
  | cons d ds ih =>
      simp only [List.map_cons, firstMaxBy]
      by_cases h : key (f c) < key (f d)
      · simp [h, ih]
      · simp [h, ih]

/-- Specification of `firstMaxBy`: the chosen element splits the list so
that everything strictly before it has a strictly smaller key (first
occurrence wins) and nothing anywhere has a larger key. -/
lemma firstMaxBy_spec {α : Type} (key : α → ℚ) (c : α) (ds : List α) :
    ∃ pre suf, c :: ds = pre ++ firstMaxBy key c ds :: suf
      ∧ (∀ d ∈ pre, key d < key (firstMaxBy key c ds))
      ∧ (∀ d ∈ c :: ds, key d ≤ key (firstMaxBy key c ds)) := by
  induction ds generalizing c with
  | nil =>
      refine ⟨[], [], by simp [firstMaxBy], by simp, ?_⟩
      intro x hx
      rcases List.mem_cons.mp hx with hx | hx
      · subst hx; simp [firstMaxBy]
      · cases hx
  | cons d ds ih =>
      by_cases h : key c < key d
      · have hm : firstMaxBy key c (d :: ds) = firstMaxBy key d ds := by
          simp [firstMaxBy, h]
        rw [hm]
        obtain ⟨pre, suf, hdec, hpre, hmax⟩ := ih d
        have hdle : key d ≤ key (firstMaxBy key d ds) := hmax d (List.mem_cons_self d ds)
        have hcl : key c < key (firstMaxBy key d ds) := lt_of_lt_of_le h hdle
        refine ⟨c :: pre, suf, ?_, ?_, ?_⟩
        · rw [List.cons_append, ← hdec]
        · intro x hx
          rcases List.mem_cons.mp hx with hx | hx
          · subst hx; exact hcl
          · exact hpre x hx
        · intro x hx
          rcases List.mem_cons.mp hx with hx | hx
          · subst hx; exact le_of_lt hcl
          · exact hmax x hx
      · have hm : firstMaxBy key c (d :: ds) = firstMaxBy key c ds := by
          simp [firstMaxBy, h]
        rw [hm]
        obtain ⟨pre, suf, hdec, hpre, hmax⟩ := ih c
        have hdc : key d ≤ key c := le_of_not_lt h
        have hcle : key c ≤ key (firstMaxBy key c ds) := hmax c (List.mem_cons_self c ds)
        have hdle : key d ≤ key (firstMaxBy key c ds) := le_trans hdc hcle
        have hmaxAll : ∀ x ∈ c :: d :: ds, key x ≤ key (firstMaxBy key c ds) := by
          intro x hx
          rcases List.mem_cons.mp hx with hx | hx
          · subst hx; exact hcle
          · rcases List.mem_cons.mp hx with hx | hx
            · subst hx; exact hdle
            · exact hmax x (List.mem_cons_of_mem _ hx)
        cases pre with
        | nil =>
            rw [List.nil_append] at hdec
            obtain ⟨hc, hsuf⟩ := List.cons.inj hdec
            refine ⟨[], d :: suf, ?_, by simp, hmaxAll⟩
            rw [List.nil_append, ← hc, ← hsuf]
        | cons p pre' =>
            rw [List.cons_append] at hdec
            obtain ⟨hp, hds⟩ := List.cons.inj hdec
            have hclt : key c < key (firstMaxBy key c ds) := by
              have hpp := hpre p (List.mem_cons_self p pre')
              rwa [← hp] at hpp
            refine ⟨c :: d :: pre', suf, ?_, ?_, hmaxAll⟩
            · simp only [List.cons_append]
              rw [← hds]
            · intro x hx
              rcases List.mem_cons.mp hx with hx | hx
              · subst hx; exact hclt
              · rcases List.mem_cons.mp hx with hx | hx
                · subst hx; exact lt_of_le_of_lt hdc hclt
                · exact hpre x (List.mem_cons_of_mem _ hx)

/-- Repeated `get_pipeline` calls are stable: a second call in the state the
first one left behind returns the same handle and the same state. -/
lemma get_pipeline_idem {P : Type} (lib : PipelineLib P) (st : ModelState P) :
    get_pipeline lib (get_pipeline lib st).2 = get_pipeline lib st := by
  obtain ⟨pl, er⟩ := st
  cases pl <;> cases er <;> cases lib <;> simp [get_pipeline]

/-- The state `analyze_log` leaves behind is exactly the state
`get_pipeline` produced: the handler mutates nothing else. -/
lemma analyze_log_state (cfg : Config) (lib : PipelineLib Pipe)
    (st : ModelState Pipe) (req : AnalyzeRequest) :
    (analyze_log cfg lib st req).2 = (get_pipeline lib st).2 := by
  unfold analyze_log
  rcases hg : (get_pipeline lib st).1 with _ | pipe
  · simp [hg]
  · rcases hp : pick_top_label (pipe req.text) with e | top <;> simp [hg, hp]

/-! ### Claim theorems -/

/-- Claim C3: for every empty candidate set, `pick_top_label` returns
`{label: "unknown", score: 0.0}` as a normal (`Except.ok`) fallback result,
not an error — whether the candidates are empty directly, via an empty raw
list, or via an empty first inner list of a batch-nested result. -/
theorem pick_top_label_empty_fallback :
    pickFrom [] = Except.ok ⟨"unknown", 0⟩
    ∧ pick_top_label (PyVal.list []) = Except.ok ⟨"unknown", 0⟩
    ∧ pick_top_label (PyVal.list [PyVal.list []]) = Except.ok ⟨"unknown", 0⟩ :=
  ⟨rfl, rfl, rfl⟩

/-- Claim C2: on a nonempty well-formed candidate list, `pick_top_label`
returns a candidate of maximal score, and on exact ties the first-encountered
candidate in list order: the list splits around the returned candidate with
everything before it of strictly smaller score and nothing anywhere of larger
score. -/
theorem pick_top_label_first_occurrence_max (cs : List (String × ℚ))
    (h : cs ≠ []) :
    ∃ t pre suf,
      pick_top_label (PyVal.list (cs.map embedPair)) = Except.ok ⟨t.1, t.2⟩
      ∧ cs = pre ++ t :: suf
      ∧ (∀ d ∈ pre, d.2 < t.2)
      ∧ (∀ d ∈ cs, d.2 ≤ t.2) := by
  match cs, h with
  | c :: rest, _ =>
    obtain ⟨pre, suf, hdec, hpre, hmax⟩ :=
      firstMaxBy_spec (fun p : String × ℚ => p.2) c rest
    refine ⟨firstMaxBy (fun p => p.2) c rest, pre, suf, ?_, hdec, hpre, hmax⟩
    have hmap : (c :: rest).map embedPair
        = (toOptCand c :: rest.map toOptCand).map embedCand := by
      rw [show toOptCand c :: rest.map toOptCand = (c :: rest).map toOptCand from rfl,
        List.map_map]
      rfl
    rw [hmap, pick_top_label_embedCand, firstMaxBy_map toOptCand scoreOf c rest]
    rfl

/-- Claim C2 witness: the theorem applied to the spec's own tie example (with
the scores scaled to integers), `[(A, 2), (B, 2)]`. -/
theorem pick_top_label_first_occurrence_max_witness :
    ∃ t pre suf,
      pick_top_label (PyVal.list ([("A", (2 : ℚ)), ("B", 2)].map embedPair))
        = Except.ok ⟨t.1, t.2⟩
      ∧ [("A", (2 : ℚ)), ("B", 2)] = pre ++ t :: suf
      ∧ (∀ d ∈ pre, d.2 < t.2)
      ∧ (∀ d ∈ [("A", (2 : ℚ)), ("B", 2)], d.2 ≤ t.2) :=
  pick_top_label_first_occurrence_max [("A", 2), ("B", 2)] (by simp)

/-- Claim C4 counterexample: a list containing a non-dict entry is not a
well-formed list of label/score pairs, yet `pick_top_label` raises
(`AttributeError` from `"x".get`) instead of returning the defined
fallback, refuting the claim that malformed input is never an error. -/
theorem pick_top_label_nondict_entry_raises :
    pick_top_label (PyVal.list [PyVal.str "x"]) = Except.error PyErr.attrError :=
  rfl

/-- Claim C4 (amended): a non-list input yields the fallback
`{label: "unknown", score: 0.0}` without raising, and in a list of dict
candidates a missing `score` is treated as `0.0` and a missing `label` as
`"unknown"`, never an error; tolerance does not extend to non-dict entries
inside a list (see the counterexample). -/
theorem pick_top_label_malformed_tolerance :
    (∀ v : PyVal, isList v = false → pick_top_label v = Except.ok ⟨"unknown", 0⟩)
    ∧ (∀ (c : OptCand) (cs : List OptCand),
        pick_top_label (PyVal.list ((c :: cs).map embedCand))
          = Except.ok (candDefaults (firstMaxBy scoreOf c cs))) := by
  constructor
  · intro v hv
    cases v
    · rfl
    · rfl
    · simp [isList] at hv
    · rfl
    · rfl
  · exact pick_top_label_embedCand

/-- Claim C4 witness: the theorem applied to a non-list input (`None`) and to
a candidate list whose first entry has no score and whose second, selected
entry has no label — the defaults `0.0` and `"unknown"` are substituted and
no error occurs. -/
theorem pick_top_label_malformed_tolerance_witness :
    pick_top_label PyVal.none = Except.ok ⟨"unknown", 0⟩
    ∧ pick_top_label (PyVal.list
        [embedCand (Option.some "L", Option.none),
         embedCand (Option.none, Option.some 2)])
        = Except.ok ⟨"unknown", 2⟩ :=
  ⟨pick_top_label_malformed_tolerance.1 PyVal.none rfl,
   (pick_top_label_malformed_tolerance.2 (Option.some "L", Option.none)
      [(Option.none, Option.some 2)]).trans rfl⟩

/-- Claim C10: a non-empty list result whose first element is itself a list
is batch-nested — `pick_top_label` selects only from that first inner list,
ignoring the remaining elements; and every non-list result (dict, string,
`None`, number) is treated as an empty candidate set and yields the
`{label: "unknown", score: 0.0}` fallback. -/
theorem pick_top_label_nested_and_nonlist :
    (∀ ys rest : List PyVal,
        extractCandidates (PyVal.list (PyVal.list ys :: rest)) = ys
        ∧ pick_top_label (PyVal.list (PyVal.list ys :: rest)) = pickFrom ys)
    ∧ (∀ v : PyVal, isList v = false → pick_top_label v = Except.ok ⟨"unknown", 0⟩) := by
  refine ⟨fun ys rest => ⟨rfl, rfl⟩, ?_⟩
  intro v hv
  cases v
  · rfl
  · rfl
  · simp [isList] at hv
  · rfl
  · rfl

/-- Claim C10 witness: the theorem applied to a nested result whose second
inner list would have won on score (it is ignored), and to a dict result
(treated as empty). -/
theorem pick_top_label_nested_and_nonlist_witness :
    (extractCandidates (PyVal.list [PyVal.list [embedPair ("A", 1)], PyVal.list [embedPair ("B", 5)]])
        = [embedPair ("A", 1)]
      ∧ pick_top_label (PyVal.list [PyVal.list [embedPair ("A", 1)], PyVal.list [embedPair ("B", 5)]])
        = pickFrom [embedPair ("A", 1)])
    ∧ pick_top_label (PyVal.dict Option.none Option.none) = Except.ok ⟨"unknown", 0⟩ :=
  ⟨pick_top_label_nested_and_nonlist.1 [embedPair ("A", 1)] [PyVal.list [embedPair ("B", 5)]],
   pick_top_label_nested_and_nonlist.2 (PyVal.dict Option.none Option.none) rfl⟩

/-- Claim C1: whenever `analyze_log` reaches the Selector and it returns a
top candidate, the response's suspicion flag is: score `>=` threshold AND
label in `suspicious_labels` when that set is non-empty, and score `>=`
threshold alone when it is empty — stated as a single inclusive-`≥` iff. -/
theorem analyze_log_suspicion_decision (cfg : Config) (lib : PipelineLib Pipe)
    (st : ModelState Pipe) (req : AnalyzeRequest) (pipe : Pipe) (top : TopLabel)
    (hp : (get_pipeline lib st).1 = Option.some pipe)
    (ht : pick_top_label (pipe req.text) = Except.ok top) :
    ∃ resp : AnalyzeResponse,
      (analyze_log cfg lib st req).1 = AnalyzeOutcome.ok resp
      ∧ resp.label = top.label
      ∧ resp.score = top.score
      ∧ resp.threshold = cfg.score_threshold
      ∧ (resp.is_suspicious = true ↔
          (cfg.score_threshold ≤ top.score
            ∧ (cfg.suspicious_labels = [] ∨ top.label ∈ cfg.suspicious_labels))) := by
  simp only [analyze_log, hp, ht]
  refine ⟨_, rfl, rfl, rfl, rfl, ?_⟩
  cases hl : cfg.suspicious_labels with
  | nil => simp
  | cons a as =>
      simp only [List.isEmpty_cons, Bool.not_false, if_true, Bool.and_eq_true,
        decide_eq_true_eq, List.elem_iff]
      constructor
      · rintro ⟨h1, h2⟩
        exact ⟨h1, Or.inr h2⟩
      · rintro ⟨h1, h2 | h2⟩
        · cases h2
        · exact ⟨h1, h2⟩

/-- Claim C1 witness: threshold 1, suspicious set `{"NEG"}`, classifier
output `[{NEG, 2}]`: the score reaches the threshold and the label is in the
set, and the theorem yields the response with its suspicion equivalence. -/
theorem analyze_log_suspicion_decision_witness :
    ∃ resp : AnalyzeResponse,
      (analyze_log ⟨"m", 1, ["NEG"]⟩
          (PipelineLib.loads fun _ => PyVal.list [embedPair ("NEG", 2)])
          ⟨Option.none, Option.none⟩ ⟨"1", "t", Option.none⟩).1
        = AnalyzeOutcome.ok resp
      ∧ resp.label = (⟨"NEG", 2⟩ : TopLabel).label
      ∧ resp.score = (⟨"NEG", 2⟩ : TopLabel).score
      ∧ resp.threshold = (⟨"m", 1, ["NEG"]⟩ : Config).score_threshold
      ∧ (resp.is_suspicious = true ↔
          ((⟨"m", 1, ["NEG"]⟩ : Config).score_threshold ≤ (⟨"NEG", 2⟩ : TopLabel).score
            ∧ ((⟨"m", 1, ["NEG"]⟩ : Config).suspicious_labels = []
                ∨ (⟨"NEG", 2⟩ : TopLabel).label ∈ (⟨"m", 1, ["NEG"]⟩ : Config).suspicious_labels))) :=
  analyze_log_suspicion_decision ⟨"m", 1, ["NEG"]⟩
    (PipelineLib.loads fun _ => PyVal.list [embedPair ("NEG", 2)])
    ⟨Option.none, Option.none⟩ ⟨"1", "t", Option.none⟩
    (fun _ => PyVal.list [embedPair ("NEG", 2)]) ⟨"NEG", 2⟩ rfl rfl

/-- Claim C5: whenever the classifier capability is unavailable
(`get_pipeline` yields no pipeline — not loaded or load failed), the
`/analyze` call is exactly the HTTP 503 error carrying the recorded error
detail: the Selector is never consulted and no verdict (in particular no
silent "NORMAL") is fabricated. -/
theorem analyze_log_unavailable_503 (cfg : Config) (lib : PipelineLib Pipe)
    (st : ModelState Pipe) (req : AnalyzeRequest)
    (h : (get_pipeline lib st).1 = Option.none) :
    analyze_log cfg lib st req
      = (AnalyzeOutcome.httpError 503 (errorDetail (get_pipeline lib st).2.model_error),
          (get_pipeline lib st).2) := by
  simp only [analyze_log, h]

/-- Claim C5 witness: with the `transformers` import unavailable and a fresh
process state, `/analyze` returns the 503 with the recorded import error. -/
theorem analyze_log_unavailable_503_witness :
    analyze_log ⟨"m", 1, []⟩ PipelineLib.unavailable ⟨Option.none, Option.none⟩
        ⟨"1", "t", Option.none⟩
      = (AnalyzeOutcome.httpError 503
          (errorDetail (get_pipeline (PipelineLib.unavailable (P := Pipe))
              ⟨Option.none, Option.none⟩).2.model_error),
          (get_pipeline (PipelineLib.unavailable (P := Pipe))
              ⟨Option.none, Option.none⟩).2) :=
  analyze_log_unavailable_503 ⟨"m", 1, []⟩ PipelineLib.unavailable
    ⟨Option.none, Option.none⟩ ⟨"1", "t", Option.none⟩ rfl

/-- Claim C6: the classifier is initialized at most once per process and
failure is sticky.  Once either global is populated, `get_pipeline` returns
immediately with the cached value, changes nothing, and does not consult the
library environment at all (the result is the same for every environment);
consequently a second call in the state any call leaves behind re-attempts
nothing. -/
theorem get_pipeline_init_at_most_once :
    (∀ (P : Type) (lib lib' : PipelineLib P) (st : ModelState P),
        st.model_pipeline.isSome = true ∨ st.model_error.isSome = true →
        get_pipeline lib st = (st.model_pipeline, st)
          ∧ get_pipeline lib st = get_pipeline lib' st)
    ∧ (∀ (P : Type) (lib : PipelineLib P) (st : ModelState P),
        get_pipeline lib (get_pipeline lib st).2 = get_pipeline lib st) := by
  constructor
  · intro P lib lib' st h
    have hc : (st.model_pipeline.isSome || st.model_error.isSome) = true := by
      rcases h with h | h <;> simp [h]
    constructor <;> simp [get_pipeline, hc]
  · intro P lib st
    exact get_pipeline_idem lib st

/-- Claim C6 witness: after a failed initialization (`_model_error` set), a
later call returns `None` without retrying, identically under an environment
that would now load successfully and under one that would not; and the
second call after a fresh successful load is stable. -/
theorem get_pipeline_init_at_most_once_witness :
    (get_pipeline (PipelineLib.loads ()) (⟨Option.none, Option.some "boom"⟩ : ModelState Unit)
        = ((⟨Option.none, Option.some "boom"⟩ : ModelState Unit).model_pipeline,
            (⟨Option.none, Option.some "boom"⟩ : ModelState Unit))
      ∧ get_pipeline (PipelineLib.loads ()) (⟨Option.none, Option.some "boom"⟩ : ModelState Unit)
        = get_pipeline PipelineLib.unavailable (⟨Option.none, Option.some "boom"⟩ : ModelState Unit))
    ∧ get_pipeline (PipelineLib.loads ())
        (get_pipeline (PipelineLib.loads ()) (⟨Option.none, Option.none⟩ : ModelState Unit)).2
      = get_pipeline (PipelineLib.loads ()) (⟨Option.none, Option.none⟩ : ModelState Unit) :=
  ⟨get_pipeline_init_at_most_once.1 Unit (PipelineLib.loads ()) PipelineLib.unavailable
      ⟨Option.none, Option.some "boom"⟩ (Or.inr rfl),
   get_pipeline_init_at_most_once.2 Unit (PipelineLib.loads ()) ⟨Option.none, Option.none⟩⟩

/-- Claim C7 counterexample: two process states — one whose classifier
failed to load (no pipeline, sticky error, `get_pipeline` yields nothing)
and one whose classifier is loaded and ready — receive the *same* health
response, and that response says `"ok"` in both: the health endpoint does
not reflect whether the classifier is available. -/
theorem health_constant_despite_unavailable :
    health "m" ({ model_pipeline := Option.none,
                  model_error := Option.some "load failed" } : ModelState Unit)
      = health "m" ({ model_pipeline := Option.some (),
                      model_error := Option.none } : ModelState Unit)
    ∧ (get_pipeline PipelineLib.unavailable
        ({ model_pipeline := Option.none,
           model_error := Option.some "load failed" } : ModelState Unit)).1 = Option.none
    ∧ (get_pipeline PipelineLib.unavailable
        ({ model_pipeline := Option.some (),
           model_error := Option.none } : ModelState Unit)).1 = Option.some ()
    ∧ health "m" ({ model_pipeline := Option.none,
                    model_error := Option.some "load failed" } : ModelState Unit)
      = [("status", "ok"), ("model", "m")] :=
  ⟨rfl, rfl, rfl, rfl⟩

/-- Claim C7 (amended): the health endpoint reports the configured model
identity, but its status is the constant `"ok"` for every process state — it
does not expose whether the classifier dependency is ready. -/
theorem health_reports_static_ok_and_model :
    ∀ (P : Type) (model_name : String) (st : ModelState P),
      health model_name st = [("status", "ok"), ("model", model_name)] :=
  fun _ _ _ => rfl

/-- Claim C8: the decision layer is deterministic.  A second `/analyze` call
in the state the first left behind, with the same configuration, library
environment and request, returns the identical outcome and state (the only
mutable state is the cached pipeline); and any two calls that obtain the
same pipeline and carry the same input text produce the identical outcome,
whatever states or environments they started from. -/
theorem analyze_log_deterministic :
    (∀ (cfg : Config) (lib : PipelineLib Pipe) (st : ModelState Pipe)
        (req : AnalyzeRequest),
        analyze_log cfg lib (analyze_log cfg lib st req).2 req
          = analyze_log cfg lib st req)
    ∧ (∀ (cfg : Config) (lib lib' : PipelineLib Pipe)
        (st st' : ModelState Pipe) (req req' : AnalyzeRequest) (pipe : Pipe),
        (get_pipeline lib st).1 = Option.some pipe →
        (get_pipeline lib' st').1 = Option.some pipe →
        req.text = req'.text →
        (analyze_log cfg lib st req).1 = (analyze_log cfg lib' st' req').1) := by
  constructor
  · intro cfg lib st req
    rw [analyze_log_state]
    simp only [analyze_log, get_pipeline_idem]
  · intro cfg lib lib' st st' req req' pipe hp hp' htext
    simp only [analyze_log, hp, hp', htext]
    rcases hres : pick_top_label (pipe req'.text) with e | top <;> simp [hres]

/-- Claim C8 witness: the sequential-call conjunct at a concrete loading
environment, and the cross-state conjunct with the same pipeline cached two
different ways and two requests sharing their text. -/
theorem analyze_log_deterministic_witness :
    analyze_log ⟨"m", 1, []⟩ (PipelineLib.loads fun _ => PyVal.list [])
        (analyze_log ⟨"m", 1, []⟩ (PipelineLib.loads fun _ => PyVal.list [])
          ⟨Option.none, Option.none⟩ ⟨"1", "t", Option.none⟩).2
        ⟨"1", "t", Option.none⟩
      = analyze_log ⟨"m", 1, []⟩ (PipelineLib.loads fun _ => PyVal.list [])
          ⟨Option.none, Option.none⟩ ⟨"1", "t", Option.none⟩
    ∧ (analyze_log ⟨"m", 1, []⟩ (PipelineLib.loads fun _ => PyVal.list [])
          ⟨Option.none, Option.none⟩ ⟨"a", "t", Option.none⟩).1
      = (analyze_log ⟨"m", 1, []⟩ PipelineLib.unavailable
          ⟨Option.some fun _ => PyVal.list [], Option.none⟩ ⟨"b", "t", Option.some PyVal.none⟩).1 :=
  ⟨analyze_log_deterministic.1 ⟨"m", 1, []⟩ (PipelineLib.loads fun _ => PyVal.list [])
      ⟨Option.none, Option.none⟩ ⟨"1", "t", Option.none⟩,
   analyze_log_deterministic.2 ⟨"m", 1, []⟩ (PipelineLib.loads fun _ => PyVal.list [])
      PipelineLib.unavailable ⟨Option.none, Option.none⟩
      ⟨Option.some fun _ => PyVal.list [], Option.none⟩
      ⟨"a", "t", Option.none⟩ ⟨"b", "t", Option.some PyVal.none⟩
      (fun _ => PyVal.list []) rfl rfl rfl⟩

/-- Claim C9: the Rule-Grounded Prompt Classifier's extraction always
returns a classification and never propagates an error: every generator
outcome maps to `"ANOMALOUS"` or `"NORMAL"`; any failure (timeout,
exception, empty or non-UTF output) maps to `"NORMAL"`; text containing
`"ANOMALOUS"` case-insensitively maps to `"ANOMALOUS"` (checked first, so it
wins even when `"NORMAL"` also appears); and text without it — whether or
not `"NORMAL"` appears — maps to `"NORMAL"`. -/
theorem extract_verdict_total_fail_safe :
    (∀ g : GenResult, extract_verdict g = "ANOMALOUS" ∨ extract_verdict g = "NORMAL")
    ∧ (∀ r, extract_verdict (GenResult.failure r) = "NORMAL")
    ∧ (∀ t, containsCI t "ANOMALOUS" = true →
        extract_verdict (GenResult.ok t) = "ANOMALOUS")
    ∧ (∀ t, containsCI t "ANOMALOUS" = false →
        extract_verdict (GenResult.ok t) = "NORMAL") := by
  refine ⟨?_, fun r => rfl, ?_, ?_⟩
  · intro g
    cases g with
    | failure r => right; rfl
    | ok t =>
        by_cases h : containsCI t "ANOMALOUS" = true
        · left; simp [extract_verdict, h]
        · right
          simp only [Bool.not_eq_true] at h
          simp [extract_verdict, h]
  · intro t h; simp [extract_verdict, h]
  · intro t h; simp [extract_verdict, h]

/-- Claim C9 witness: the theorem applied to mixed-case text containing both
keywords (extraction order resolves it to `"ANOMALOUS"`), a generator
failure, and garbage text. -/
theorem extract_verdict_total_fail_safe_witness :
    (extract_verdict (GenResult.ok "looks AnOmAlOuS, not normal") = "ANOMALOUS"
      ∨ extract_verdict (GenResult.ok "looks AnOmAlOuS, not normal") = "NORMAL")
    ∧ extract_verdict (GenResult.failure "timed out") = "NORMAL"
    ∧ extract_verdict (GenResult.ok "looks AnOmAlOuS, not normal") = "ANOMALOUS"
    ∧ extract_verdict (GenResult.ok "%%garbage%%") = "NORMAL" :=
  ⟨extract_verdict_total_fail_safe.1 (GenResult.ok "looks AnOmAlOuS, not normal"),
   extract_verdict_total_fail_safe.2.1 "timed out",
   extract_verdict_total_fail_safe.2.2.1 "looks AnOmAlOuS, not normal" rfl,
   extract_verdict_total_fail_safe.2.2.2 "%%garbage%%" rfl⟩

end LogAI
